import Mathlib

/-!
Verification development for `multiplication-practice.py`, a Tk-based
multiplication drill widget.  The Python program is embedded shallowly:

* `MultiplicationWidget` is the mutable instance state (the fields assigned
  in `__init__`); fields that Python initializes to `None` are `Option`s.
* Python exceptions are modelled by `Except PyErr`: a handler that raises
  returns `.error e`.  In Tkinter an exception thrown inside a callback is
  reported and the event loop continues with whatever mutations already
  happened; in this program the only exception reachable from a reachable
  state (`ValueError` in `int(...)`) is raised before any mutation, so the
  post-exception state coincides with the pre-state and the `.error`
  modelling loses no reachable states.
* `_get_formatted` embeds the regex `(?<!\\)\[(.+?)(?<!\\)\]` directly:
  `findall` scans for an unescaped opening bracket and then the shortest
  non-empty newline-free run of characters up to an unescaped closing
  bracket, exactly as the lazy pattern does, and `subOne` embeds
  `re.sub((?<!\\)\[ ++ name ++ (?<!\\)\], value, text)` for a token `name`
  that contains no regex metacharacters (every name this program looks up is
  a Python identifier) and a replacement value that contains no backslash
  (so that the replacement-escape processing of `re.sub` is the identity).
* The Tk binding table of the root window is the `bound` association list;
  `bind` replaces any previous binding of the same event sequence and
  `unbind` removes it, as in Tk without the add option.  The literal
  `exec(...)` strings of `set_widget_state` perform exactly a
  `self.unbind(event)` respectively `self.bind(event, handler)` call, so the
  embedding performs those calls directly.
* `time.time()` values and float arithmetic are modelled with exact
  rationals; `round(x, 1)` is embedded as round-half-to-even at one decimal
  (`pyRound`), the rounding Python uses.
* `randint` results and clock readings are inputs (`ExtInput`) of each event
  step; `validExt` records their contracts: both drawn pairs lie in
  `[_min_factor, _max_factor]` and the clock never runs backwards within a
  session.
-/

/-- Python exception classes that the program can raise. -/
inductive PyErr where
  | keyError (msg : String)
  | runtimeError (msg : String)
  | valueError (msg : String)
  | typeError (msg : String)
deriving DecidableEq, Repr

/-- One entry of `widget_states`: the message template of the state and the
ordered event-routing table `{event_name: [method_name, ...]}`. -/
structure MultiplicationWidgetState where
  message : String
  event_routings : List (String × List String)
deriving DecidableEq, Repr

/-- Close a token started by an unescaped opening bracket: find the shortest
non-empty newline-free content followed by a closing bracket whose preceding
character is not a backslash, as the lazy regex `(.+?)(?<!\\)\]` does.  The
accumulator holds the content scanned so far, reversed, so its head is the
character directly before the candidate closing bracket. -/
def closeTok : List Char → List Char → Option (List Char × List Char)
  | [], _ => none
  | c :: rest, acc =>
    if c = '\n' then none
    else if c = ']' ∧ acc ≠ [] ∧ acc.head? ≠ some '\\' then some (acc.reverse, rest)
    else closeTok rest (c :: acc)

/-- Scanner for `re.findall((?<!\\)\[(.+?)(?<!\\)\], template)`: walk the
text remembering the previous character (for the lookbehind); at an
unescaped opening bracket try to close a token, emit it and resume after its
closing bracket, otherwise move one character forward.  The fuel is the
length of the scanned text, which bounds the recursion. -/
def scanAux : Nat → Option Char → List Char → List (List Char)
  | 0, _, _ => []
  | _ + 1, _, [] => []
  | fuel + 1, prev, c :: rest =>
    if c = '[' ∧ prev ≠ some '\\' then
      match closeTok rest [] with
      | some (content, rest') => content :: scanAux fuel (some ']') rest'
      | none => scanAux fuel (some c) rest
    else scanAux fuel (some c) rest

/-- All token names of a template, in order of occurrence, as
`re.findall(match_str, template)` returns them. -/
def findall (template : String) : List String :=
  (scanAux template.data.length none template.data).map String.mk

/-- Insert a resolved token into the `replacements` dict: a key already
present keeps its first position and its value (the lookup that produced the
value is deterministic, so re-inserting would store the same value). -/
def addReplacement (acc : List (String × String)) (c v : String) :
    List (String × String) :=
  if (List.lookup c acc).isSome then acc else acc ++ [(c, v)]

/-- The candidate-resolution loop of `_get_formatted`: each scanned token is
looked up first among the instance attributes (`vars(self)`), then in the
merged ambient scope (`dict(globals(), **locals())`); a token found in
neither raises `RuntimeError('Bad format key: "...."')`. -/
def buildReps :
    List String → List (String × String) → List (String × String) →
    List (String × String) → Except PyErr (List (String × String))
  | [], _, _, acc => .ok acc
  | c :: rest, attrs, scope, acc =>
    match List.lookup c attrs with
    | some v => buildReps rest attrs scope (addReplacement acc c v)
    | none =>
      match List.lookup c scope with
      | some v => buildReps rest attrs scope (addReplacement acc c v)
      | none => .error (.runtimeError ("Bad format key: \x22" ++ c ++ "\x22"))

/-- One `re.sub` pass for the pattern `(?<!\\)\[name(?<!\\)\]`: scan the
text remembering the previous original character; at each position where the
literal `[name]` occurs, the previous character is not a backslash and the
character before the closing bracket is not a backslash (`lastOk`), emit the
replacement value and resume scanning the original text after the match
(`re.sub` never rescans replacement text); otherwise copy one character. -/
def subAux (pat : List Char) (lastOk : Bool) (v : List Char) :
    Nat → Option Char → List Char → List Char
  | 0, _, s => s
  | _ + 1, _, [] => []
  | fuel + 1, prev, c :: rest =>
    if prev ≠ some '\\' ∧ lastOk = true ∧ pat.isPrefixOf (c :: rest) then
      v ++ subAux pat lastOk v fuel (some ']') ((c :: rest).drop pat.length)
    else c :: subAux pat lastOk v fuel (some c) rest

/-- `re.sub(sub_string, str(value), template)` for one token name. -/
def subOne (cand v t : String) : String :=
  let pat := '[' :: (cand.data ++ [']'])
  let lastOk := decide (cand.data.getLast? ≠ some '\\')
  String.mk (subAux pat lastOk v.data t.data.length none t.data)

/-- `MultiplicationWidget._get_formatted`, with the two lookup tiers passed
explicitly: `attrs` is `vars(self)` and `scope` is the merged
`dict(globals(), **locals())` visible at the lookup site.  The replacement
loop runs one `re.sub` pass per resolved token, in first-occurrence order. -/
def _get_formatted (template : String) (attrs scope : List (String × String)) :
    Except PyErr String :=
  match buildReps (findall template) attrs scope [] with
  | .error e => .error e
  | .ok replacements =>
    .ok (replacements.foldl (fun t cv => subOne cv.1 cv.2 t) template)

/-- The five-entry state table built in `__init__`.  Messages are the exact
source strings (the apostrophes of the correct and incorrect messages are
written as the escape x27). -/
def widget_states : List (String × MultiplicationWidgetState) := [
  ("initial",
    { message := "[num_problems] Challenges.\nClick to Start!",
      event_routings := [("<Button-1>", ["start_game"]),
                         ("<Return>", ["start_game"])] }),
  ("problem",
    { message := "[first_num] X [second_num]\n[_user_input_buffer]",
      event_routings := [("<Key>", ["on_keypress"]),
                         ("<BackSpace>", ["on_backspace"]),
                         ("<Return>", ["on_enter"])] }),
  ("correct",
    { message := "That\x27s correct!\nClick to continue.",
      event_routings := [("<Button-1>", ["next_problem"]),
                         ("<Return>", ["next_problem"])] }),
  ("incorrect",
    { message := "That\x27s incorrect.\nClick to continue.",
      event_routings := [("<Button-1>", ["next_problem"]),
                         ("<Return>", ["next_problem"])] }),
  ("end",
    { message := "You solved [num_solved] out of [num_problems] in [seconds_elapsed] seconds!\nClick to play again!",
      event_routings := [("<Button-1>", ["start_game"]),
                         ("<Return>", ["start_game"])] })
]

/-- The mutable state of the single `MultiplicationWidget` instance: the
attributes assigned in `__init__` (attributes inherited from `Tk` that the
program never reads are omitted), plus the displayed text (`self.text`) and
the event-binding table of the root window (`bound`). -/
structure MultiplicationWidget where
  num_problems : Int
  seconds_elapsed : Option Rat
  num_solved : Option Int
  _num_displayed : Option Int
  first_num : Option Int
  second_num : Option Int
  _start_time : Option Rat
  _end_time : Option Rat
  _user_input_buffer : Option String
  _min_factor : Int
  _max_factor : Int
  curr_widget_state : String
  text : String
  bound : List (String × String)
deriving DecidableEq, Repr

/-- `str(float)` rendering used only to fill the render context; no claim
inspects a rendered timestamp, so an exact rational rendering suffices. -/
def pyFloatStr (q : Rat) : String :=
  if q.den = 1 then toString q.num ++ ".0"
  else toString q.num ++ "/" ++ toString q.den

/-- `str` of an int-or-None attribute. -/
def pyStrOptInt : Option Int → String
  | none => "None"
  | some n => toString n

/-- `str` of a float-or-None attribute. -/
def pyStrOptRat : Option Rat → String
  | none => "None"
  | some q => pyFloatStr q

/-- `str` of a string-or-None attribute (`str` of a string is itself). -/
def pyStrOptStr : Option String → String
  | none => "None"
  | some s => s

/-- `vars(self)` as a render context: every instance attribute, in
assignment order, with its `str` value.  The last three entries are
container or Tk objects whose display strings the program never resolves in
a template; they are modelled by fixed placeholders since only the presence
of their keys can matter. -/
def varsOf (w : MultiplicationWidget) : List (String × String) := [
  ("num_problems", toString w.num_problems),
  ("seconds_elapsed", pyStrOptRat w.seconds_elapsed),
  ("num_solved", pyStrOptInt w.num_solved),
  ("_num_displayed", pyStrOptInt w._num_displayed),
  ("first_num", pyStrOptInt w.first_num),
  ("second_num", pyStrOptInt w.second_num),
  ("_start_time", pyStrOptRat w._start_time),
  ("_end_time", pyStrOptRat w._end_time),
  ("_user_input_buffer", pyStrOptStr w._user_input_buffer),
  ("_min_factor", toString w._min_factor),
  ("_max_factor", toString w._max_factor),
  ("widget_states", "<dict of MultiplicationWidgetState>"),
  ("curr_widget_state", w.curr_widget_state),
  ("text", "PY_VAR0"),
  ("label", ".!label")
]

/-- The ambient scope `dict(globals(), **locals())` that `_get_formatted`
falls back to for a token that is not an instance attribute: the module
globals (imports and the two classes) merged with the locals of
`_get_formatted` at the lookup site.  The values are display placeholders;
no theorem depends on them, only on which keys exist. -/
def pythonScope : List (String × String) := [
  ("__name__", "__main__"),
  ("Label", "<class tkinter.Label>"),
  ("Tk", "<class tkinter.Tk>"),
  ("StringVar", "<class tkinter.StringVar>"),
  ("randint", "<bound method Random.randint>"),
  ("MethodType", "<class method>"),
  ("GetSetDescriptorType", "<class getset_descriptor>"),
  ("List", "<typing.List>"),
  ("Dict", "<typing.Dict>"),
  ("dedent", "<function dedent>"),
  ("re", "<module re>"),
  ("time", "<module time>"),
  ("MultiplicationWidgetState", "<class MultiplicationWidgetState>"),
  ("MultiplicationWidget", "<class MultiplicationWidget>"),
  ("self", "<MultiplicationWidget object>"),
  ("template", "<local: the template argument>"),
  ("match_str", "<local: the token pattern>"),
  ("replacement_candidates", "<local: the scanned tokens>"),
  ("replacements", "<local: the resolved tokens>"),
  ("candidate", "<local: the current token>")
]

/-- Round-half-to-even to an integer, the rounding of the Python builtin
`round`. -/
def pyRound (x : Rat) : Int :=
  if x - (⌊x⌋ : Rat) < 1/2 then ⌊x⌋
  else if 1/2 < x - (⌊x⌋ : Rat) then ⌊x⌋ + 1
  else if Even ⌊x⌋ then ⌊x⌋ else ⌊x⌋ + 1

/-- `round(x, 1)`: round to one decimal place. -/
def round1 (x : Rat) : Rat := (pyRound (10 * x) : Rat) / 10

/-- Python `str.isnumeric` on one character, restricted to the character
universe of this development: the ASCII decimal digits plus the numeric
non-digit characters (Unicode category No) that a keyboard layout can
produce, of which the superscripts and vulgar fractions are listed.  These
characters are accepted by `isnumeric` but rejected by `int`. -/
def pyNumericChar (c : Char) : Bool :=
  c.isDigit || c ∈ ['¹', '²', '³', '½', '¼', '¾']

/-- Python `str.isnumeric` on the string `event.char` delivers (possibly
empty, for example for a pure modifier or after a click). -/
def pyIsnumeric (s : String) : Bool :=
  s ≠ "" && s.data.all pyNumericChar

/-- Python `int(s)` on the strings this program can build: it succeeds
exactly on nonempty strings of decimal digit characters (category Nd; of the
modelled universe these are the ASCII digits) and raises `ValueError`
otherwise.  Signs and surrounding whitespace never occur in the input
buffer. -/
def pyInt (s : String) : Option Int :=
  if s.length > 0 ∧ s.data.all Char.isDigit then
    some (s.data.foldl (fun n c => 10 * n + ((c.toNat - 48 : Nat) : Int)) 0)
  else none

/-- `self.unbind(event_name)`: remove the binding of one event sequence. -/
def unbindEvent (b : List (String × String)) (e : String) :
    List (String × String) :=
  b.filter (fun p => p.1 ≠ e)

/-- The unbind loop body of `set_widget_state`: one `unbind` call per
handler name listed for the event (each call removes the same binding). -/
def unbindRouting (b : List (String × String)) (r : String × List String) :
    List (String × String) :=
  r.2.foldl (fun acc _ => unbindEvent acc r.1) b

/-- Unbind every event routing of the previous state. -/
def unbindAll (b : List (String × String)) (rs : List (String × List String)) :
    List (String × String) :=
  rs.foldl unbindRouting b

/-- `self.bind(event_name, handler)`: Tk replaces any previous binding of
the same event sequence. -/
def bindEvent (b : List (String × String)) (e f : String) :
    List (String × String) :=
  unbindEvent b e ++ [(e, f)]

/-- The bind loop body of `set_widget_state`. -/
def bindRouting (b : List (String × String)) (r : String × List String) :
    List (String × String) :=
  r.2.foldl (fun acc f => bindEvent acc r.1 f) b

/-- Bind every event routing of the new state. -/
def bindAll (b : List (String × String)) (rs : List (String × List String)) :
    List (String × String) :=
  rs.foldl bindRouting b

/-- The event routings a state name owns in `widget_states`. -/
def routingsOf (name : String) : List (String × List String) :=
  match List.lookup name widget_states with
  | some ws => ws.event_routings
  | none => []

/-- The binding table consisting of exactly one state: what binding the
routings of that state produce on a surface with no bindings. -/
def canonBound (name : String) : List (String × String) :=
  bindAll [] (routingsOf name)

/-- `MultiplicationWidget.set_widget_state`: look up the target state (a
`KeyError` escapes if the name is unknown), look up the previous state,
unbind all of its event routings, bind all routings of the target state,
resolve the message template of the target against the current attributes,
push the text, and record the new state name. -/
def set_widget_state (w : MultiplicationWidget) (state_name : String) :
    Except PyErr MultiplicationWidget :=
  match List.lookup state_name widget_states with
  | none => .error (.keyError state_name)
  | some widget_state =>
    match List.lookup w.curr_widget_state widget_states with
    | none => .error (.keyError w.curr_widget_state)
    | some old_widget_state =>
      let b1 := unbindAll w.bound old_widget_state.event_routings
      let b2 := bindAll b1 widget_state.event_routings
      match _get_formatted widget_state.message (varsOf w) pythonScope with
      | .error e => .error e
      | .ok txt =>
        .ok { w with bound := b2, text := txt,
                     curr_widget_state := state_name }

/-- `MultiplicationWidget.refresh_text`. -/
def refresh_text (w : MultiplicationWidget) : Except PyErr MultiplicationWidget :=
  match List.lookup w.curr_widget_state widget_states with
  | none => .error (.keyError w.curr_widget_state)
  | some widget_state =>
    match _get_formatted widget_state.message (varsOf w) pythonScope with
    | .error e => .error e
    | .ok txt => .ok { w with text := txt }

/-- The external inputs one event step can consume: the clock reading and
the two pairs of `randint(_min_factor, _max_factor)` draws a handler can
make (`next_problem` draws a pair itself and `_display_problem` may draw a
second one). -/
structure ExtInput where
  now : Rat
  p1 : Int × Int
  p2 : Int × Int

/-- The session clock constraint: if a session start is recorded, the next
clock reading is not earlier than it (the clock is consistent for
subtraction within one session). -/
def startNotAfter (o : Option Rat) (now : Rat) : Prop :=
  match o with
  | none => True
  | some t => t ≤ now

instance (o : Option Rat) (now : Rat) : Decidable (startNotAfter o now) :=
  match o with
  | none => isTrue trivial
  | some t => inferInstanceAs (Decidable (t ≤ now))

/-- Contract of the environment: drawn factors lie in the configured range
and the clock reading is not earlier than the session start. -/
@[reducible]
def validExt (w : MultiplicationWidget) (ext : ExtInput) : Prop :=
  w._min_factor ≤ ext.p1.1 ∧ ext.p1.1 ≤ w._max_factor ∧
  w._min_factor ≤ ext.p1.2 ∧ ext.p1.2 ≤ w._max_factor ∧
  w._min_factor ≤ ext.p2.1 ∧ ext.p2.1 ≤ w._max_factor ∧
  w._min_factor ≤ ext.p2.2 ∧ ext.p2.2 ≤ w._max_factor ∧
  startNotAfter w._start_time ext.now

/-- `MultiplicationWidget._gen_factors` with the drawn pair made explicit. -/
def _gen_factors (w : MultiplicationWidget) (p : Int × Int) :
    MultiplicationWidget :=
  { w with first_num := some p.1, second_num := some p.2 }

/-- `MultiplicationWidget._init_vars`. -/
def _init_vars (w : MultiplicationWidget) : MultiplicationWidget :=
  { w with num_solved := some 0, _num_displayed := some 0,
           _user_input_buffer := some "" }

/-- `MultiplicationWidget._display_problem`: when the displayed count equals
`num_problems` (a `None` count compares unequal to any int, as in Python)
record the end time, derive the rounded elapsed seconds and transition to
the end state; otherwise draw a fresh factor pair, transition to the problem
state and then increment the displayed count (the increment follows the
transition in the source). -/
def _display_problem (w : MultiplicationWidget) (p : Int × Int) (now : Rat) :
    Except PyErr MultiplicationWidget :=
  if w._num_displayed = some w.num_problems then
    match w._start_time with
    | none => .error (.typeError "unsupported operand for float and NoneType")
    | some st =>
      set_widget_state
        { w with _end_time := some now,
                 seconds_elapsed := some (round1 (now - st)) } "end"
  else
    match set_widget_state (_gen_factors w p) "problem" with
    | .error e => .error e
    | .ok w2 =>
      match w2._num_displayed with
      | none => .error (.typeError "unsupported operand for NoneType and int")
      | some nd => .ok { w2 with _num_displayed := some (nd + 1) }

/-- `MultiplicationWidget.start_game`. -/
def start_game (w : MultiplicationWidget) (ext : ExtInput) :
    Except PyErr MultiplicationWidget :=
  _display_problem { _init_vars w with _start_time := some ext.now }
    ext.p2 ext.now

/-- `MultiplicationWidget.on_keypress` on the string `event.char`. -/
def on_keypress (w : MultiplicationWidget) (ch : String) :
    Except PyErr MultiplicationWidget :=
  if pyIsnumeric ch then
    match w._user_input_buffer with
    | none => .error (.typeError "unsupported operand for NoneType and str")
    | some buf => refresh_text { w with _user_input_buffer := some (buf ++ ch) }
  else .ok w

/-- `MultiplicationWidget.on_backspace`: drop the last buffered character
(`buf[:-1]` of the empty string is the empty string). -/
def on_backspace (w : MultiplicationWidget) : Except PyErr MultiplicationWidget :=
  match w._user_input_buffer with
  | none => .error (.typeError "NoneType is not subscriptable")
  | some buf => refresh_text { w with _user_input_buffer := some (buf.dropRight 1) }

/-- `MultiplicationWidget.on_enter`: on a nonempty buffer compute the
product, parse the buffer (`int` raises `ValueError` on a numeric non-digit
character) and transition according to the comparison, bumping `num_solved`
on a match. -/
def on_enter (w : MultiplicationWidget) : Except PyErr MultiplicationWidget :=
  match w._user_input_buffer with
  | none => .error (.typeError "NoneType has no len")
  | some buf =>
    if buf.length > 0 then
      match w.first_num, w.second_num with
      | some a, some b =>
        let correct_result := a * b
        match pyInt buf with
        | none => .error (.valueError ("invalid literal for int: " ++ buf))
        | some given =>
          if given = correct_result then
            match w.num_solved with
            | none => .error (.typeError "unsupported operand for NoneType and int")
            | some ns =>
              set_widget_state { w with num_solved := some (ns + 1) } "correct"
          else set_widget_state w "incorrect"
      | _, _ => .error (.typeError "unsupported operand for NoneType")
    else .ok w

/-- `MultiplicationWidget.next_problem`. -/
def next_problem (w : MultiplicationWidget) (ext : ExtInput) :
    Except PyErr MultiplicationWidget :=
  _display_problem
    { _gen_factors w ext.p1 with _user_input_buffer := some "" }
    ext.p2 ext.now

/-- The abstract input events the Tk loop can deliver to the root window. -/
inductive TkEvent where
  | button1 : TkEvent
  | enter : TkEvent
  | backspace : TkEvent
  | key : Char → TkEvent
deriving DecidableEq, Repr

/-- The binding sequences an event can fire, most specific first: Tk fires
only the most specific matching binding of the widget, so a Return press
fires `<Return>` when bound and `<Key>` otherwise. -/
def eventNames : TkEvent → List String
  | .button1 => ["<Button-1>"]
  | .enter => ["<Return>", "<Key>"]
  | .backspace => ["<BackSpace>", "<Key>"]
  | .key _ => ["<Key>"]

/-- The `event.char` attribute of each event. -/
def eventChar : TkEvent → String
  | .button1 => ""
  | .enter => "\x0D"
  | .backspace => "\x08"
  | .key c => String.singleton c

/-- The bound handler the event fires, if any. -/
def firstBound (b : List (String × String)) : List String → Option String
  | [] => none
  | n :: rest =>
    match List.lookup n b with
    | some f => some f
    | none => firstBound b rest

/-- Run the handler a binding names (the `exec`-built call
`self.bind(event_name, self.func_name)` resolves the method by this name). -/
def runHandler (w : MultiplicationWidget) (func_name : String) (e : TkEvent)
    (ext : ExtInput) : Except PyErr MultiplicationWidget :=
  match func_name with
  | "start_game" => start_game w ext
  | "on_keypress" => on_keypress w (eventChar e)
  | "on_backspace" => on_backspace w
  | "on_enter" => on_enter w
  | "next_problem" => next_problem w ext
  | _ => .error (.typeError (func_name ++ " is not callable"))

/-- One delivered input event: fire the handler bound to the most specific
matching sequence; an event with no matching binding is ignored. -/
def dispatch (w : MultiplicationWidget) (e : TkEvent) (ext : ExtInput) :
    Except PyErr MultiplicationWidget :=
  match firstBound w.bound (eventNames e) with
  | none => .ok w
  | some f => runHandler w f e ext

/-- The instance state at the end of the attribute assignments of
`__init__`, directly before the `set_widget_state(self.curr_widget_state)`
call: counters and times are `None`, no binding is installed yet. -/
def mw0 : MultiplicationWidget :=
  { num_problems := 5, seconds_elapsed := none, num_solved := none,
    _num_displayed := none, first_num := none, second_num := none,
    _start_time := none, _end_time := none, _user_input_buffer := none,
    _min_factor := 0, _max_factor := 10, curr_widget_state := "initial",
    text := "", bound := [] }

/-- The controller state after `__init__` completes. -/
def initWidget : MultiplicationWidget :=
  { mw0 with text := "5 Challenges.\nClick to Start!",
             bound := canonBound "initial" }

/-- The reachable controller states: the state `__init__` builds, closed
under delivering one input event under the environment contract. -/
inductive Reachable : MultiplicationWidget → Prop where
  | init (w : MultiplicationWidget) :
      set_widget_state mw0 "initial" = .ok w → Reachable w
  | step (w w' : MultiplicationWidget) (e : TkEvent) (ext : ExtInput) :
      Reachable w → validExt w ext → dispatch w e ext = .ok w' → Reachable w'

/-- The five state identifiers of the closed enumeration. -/
def stateNames : List String := ["initial", "problem", "correct", "incorrect", "end"]

/-- The inductive invariant of the controller: the configuration fields hold
their startup values, the binding table is exactly the binding table of the
current state, and the session counters are ordered; in the initial state
(left alternative, before any session) the session fields are still `None`,
in every other state they are set, with a strictly smaller solved count
while a problem is pending. -/
def WidgetInv (w : MultiplicationWidget) : Prop :=
  w.num_problems = 5 ∧ w._min_factor = 0 ∧ w._max_factor = 10 ∧
  w.bound = canonBound w.curr_widget_state ∧
  ((w.curr_widget_state = "initial" ∧ w.num_solved = none ∧
      w._num_displayed = none ∧ w._user_input_buffer = none ∧
      w.first_num = none ∧ w.second_num = none ∧ w._start_time = none) ∨
   (w.curr_widget_state ∈ (["problem", "correct", "incorrect", "end"] : List String) ∧
    ∃ ns nd, w.num_solved = some ns ∧ w._num_displayed = some nd ∧
      0 ≤ ns ∧ nd ≤ 5 ∧ ns ≤ nd ∧
      (w.curr_widget_state = "problem" → ns < nd) ∧
      (∃ buf, w._user_input_buffer = some buf) ∧
      (∃ a, w.first_num = some a) ∧ (∃ b, w.second_num = some b) ∧
      (∃ st, w._start_time = some st)))

/-- A Python identifier character (the token names the program resolves). -/
def isPyIdentChar (c : Char) : Bool := c.isAlphanum || c = '_'

/-- The render contexts the program builds: every key is a nonempty
identifier (no regex metacharacter reaches the interpolated `re.sub`
pattern) and no value contains a backslash (no replacement-escape processing
happens in `re.sub`).  Under this restriction the embedded substitution
coincides with the regex one. -/
def cleanCtx (m : List (String × String)) : Prop :=
  ∀ p ∈ m, (p.1 ≠ "" ∧ p.1.data.all isPyIdentChar = true) ∧ ¬ '\\' ∈ p.2.data

instance (m : List (String × String)) : Decidable (cleanCtx m) :=
  List.decidableBAll _ m

/-- A fixed environment input used for concrete runs: clock at 0, both
draws giving the pair (7, 8). -/
def extA : ExtInput := { now := 0, p1 := (7, 8), p2 := (7, 8) }

/-- The problem state one confirm event after startup with factors 7 and 8:
`dispatch initWidget .enter extA` evaluates to exactly this record. -/
def wProblem : MultiplicationWidget :=
  { mw0 with num_solved := some 0, _num_displayed := some 1,
             first_num := some 7, second_num := some 8,
             _start_time := some 0, _user_input_buffer := some "",
             curr_widget_state := "problem", text := "7 X 8\n",
             bound := canonBound "problem" }

/-- `wProblem` after the superscript-two key: the numeric, non-digit
character passes the `isnumeric` guard into the buffer. -/
def wSup : MultiplicationWidget :=
  { wProblem with _user_input_buffer := some "²", text := "7 X 8\n²" }

/-- A problem state showing 7 x 8 with the answer 56 typed. -/
def wP56 : MultiplicationWidget :=
  { wProblem with _user_input_buffer := some "56", text := "7 X 8\n56" }

/-- A problem state showing 7 x 9 with 56 typed (a wrong answer). -/
def wP79 : MultiplicationWidget :=
  { wProblem with second_num := some 9, _user_input_buffer := some "56",
                  text := "7 X 9\n56" }

/-- A correct state after the fifth problem of a session was solved. -/
def wCorrect5 : MultiplicationWidget :=
  { mw0 with num_solved := some 5, _num_displayed := some 5,
             first_num := some 7, second_num := some 8,
             _start_time := some 0, _user_input_buffer := some "56",
             curr_widget_state := "correct",
             text := "That\x27s correct!\nClick to continue.",
             bound := canonBound "correct" }

instance {e a : Type} [DecidableEq e] [DecidableEq a] :
    DecidableEq (Except e a) := fun x y =>
  match x, y with
  | .ok x, .ok y =>
    if h : x = y then isTrue (by rw [h])
    else isFalse (fun hc => h (Except.ok.inj hc))
  | .error x, .error y =>
    if h : x = y then isTrue (by rw [h])
    else isFalse (fun hc => h (Except.error.inj hc))
  | .ok _, .error _ => isFalse (fun hc => Except.noConfusion hc)
  | .error _, .ok _ => isFalse (fun hc => Except.noConfusion hc)

theorem init_ok : set_widget_state mw0 "initial" = .ok initWidget := by decide

theorem start_game_spec (w : MultiplicationWidget) (ext : ExtInput)
    (hnp : w.num_problems = 5)
    (hcur : w.curr_widget_state = "initial" ∨ w.curr_widget_state = "end")
    (hb : w.bound = canonBound w.curr_widget_state) :
    ∃ txt, start_game w ext = .ok { w with
      num_solved := some 0, _num_displayed := some 1,
      _user_input_buffer := some "", _start_time := some ext.now,
      first_num := some ext.p2.1, second_num := some ext.p2.2,
      curr_widget_state := "problem", bound := canonBound "problem",
      text := txt } := by
  obtain ⟨np, se, ns, nd, fn, sn, st, et, bufo, minf, maxf, cur, tx, bnd⟩ := w
  simp only at hnp hcur hb
  subst hnp
  rcases hcur with hcur | hcur
  · subst hcur; subst hb; exact ⟨_, rfl⟩
  · subst hcur; subst hb; exact ⟨_, rfl⟩

theorem on_keypress_spec (w : MultiplicationWidget) (ch : String) (buf : String)
    (hcur : w.curr_widget_state = "problem")
    (hbuf : w._user_input_buffer = some buf) :
    (pyIsnumeric ch = true →
      ∃ txt, on_keypress w ch = .ok { w with
        _user_input_buffer := some (buf ++ ch), text := txt }) ∧
    (pyIsnumeric ch = false → on_keypress w ch = .ok w) := by
  obtain ⟨np, se, ns, nd, fn, sn, st, et, bufo, minf, maxf, cur, tx, bnd⟩ := w
  simp only at hcur hbuf
  subst hcur; subst hbuf
  constructor
  · intro h
    simp only [on_keypress, h]
    exact ⟨_, rfl⟩
  · intro h
    simp only [on_keypress, h]
    rfl

theorem on_backspace_spec (w : MultiplicationWidget) (buf : String)
    (hcur : w.curr_widget_state = "problem")
    (hbuf : w._user_input_buffer = some buf) :
    ∃ txt, on_backspace w = .ok { w with
      _user_input_buffer := some (buf.dropRight 1), text := txt } := by
  obtain ⟨np, se, ns, nd, fn, sn, st, et, bufo, minf, maxf, cur, tx, bnd⟩ := w
  simp only at hcur hbuf
  subst hcur; subst hbuf
  exact ⟨_, rfl⟩

theorem on_enter_spec (w : MultiplicationWidget) (buf : String) (a b ns : Int)
    (hcur : w.curr_widget_state = "problem")
    (hb : w.bound = canonBound "problem")
    (hbuf : w._user_input_buffer = some buf)
    (hfn : w.first_num = some a) (hsn : w.second_num = some b)
    (hns : w.num_solved = some ns) :
    (buf = "" → on_enter w = .ok w) ∧
    (buf ≠ "" → pyInt buf = none →
      on_enter w = .error (.valueError ("invalid literal for int: " ++ buf))) ∧
    (∀ v, buf ≠ "" → pyInt buf = some v →
      (v = a * b → ∃ txt, on_enter w = .ok { w with
        num_solved := some (ns + 1), curr_widget_state := "correct",
        bound := canonBound "correct", text := txt }) ∧
      (v ≠ a * b → ∃ txt, on_enter w = .ok { w with
        curr_widget_state := "incorrect",
        bound := canonBound "incorrect", text := txt })) := by
  obtain ⟨np, se, nso, nd, fn, sn, st, et, bufo, minf, maxf, cur, tx, bnd⟩ := w
  simp only at hcur hb hbuf hfn hsn hns
  subst hcur; subst hb; subst hbuf; subst hfn; subst hsn; subst hns
  have hlen : buf ≠ "" → 0 < buf.length := by
    intro h
    cases buf with
    | mk l =>
      cases l with
      | nil => exact absurd rfl h
      | cons c cs => simp [String.length]
  refine ⟨?_, ?_, ?_⟩
  · intro h; subst h; rfl
  · intro h hparse
    simp only [on_enter, if_pos (hlen h), hparse]
  · intro v h hparse
    constructor
    · intro hv
      simp only [on_enter, if_pos (hlen h), hparse, hv, if_pos rfl]
      exact ⟨_, rfl⟩
    · intro hv
      simp only [on_enter, if_pos (hlen h), hparse, if_neg hv]
      exact ⟨_, rfl⟩

theorem next_problem_spec (w : MultiplicationWidget) (ext : ExtInput)
    (n : Int) (s0 : Rat)
    (hnp : w.num_problems = 5)
    (hcur : w.curr_widget_state = "correct" ∨ w.curr_widget_state = "incorrect")
    (hb : w.bound = canonBound w.curr_widget_state)
    (hnd : w._num_displayed = some n)
    (hst : w._start_time = some s0) :
    (n = 5 → ∃ txt, next_problem w ext = .ok { w with
      first_num := some ext.p1.1, second_num := some ext.p1.2,
      _user_input_buffer := some "", _end_time := some ext.now,
      seconds_elapsed := some (round1 (ext.now - s0)),
      curr_widget_state := "end", bound := canonBound "end", text := txt }) ∧
    (n ≠ 5 → ∃ txt, next_problem w ext = .ok { w with
      first_num := some ext.p2.1, second_num := some ext.p2.2,
      _user_input_buffer := some "", _num_displayed := some (n + 1),
      curr_widget_state := "problem", bound := canonBound "problem",
      text := txt }) := by
  obtain ⟨np, se, nso, nd, fn, sn, st, et, bufo, minf, maxf, cur, tx, bnd⟩ := w
  simp only at hnp hcur hb hnd hst
  subst hnp; subst hnd; subst hst
  constructor
  · intro h5; subst h5
    rcases hcur with hcur | hcur
    · subst hcur; subst hb; exact ⟨_, rfl⟩
    · subst hcur; subst hb; exact ⟨_, rfl⟩
  · intro hne
    have hcond : ¬ ((some n : Option Int) = some 5) := by
      simp only [Option.some.injEq]; exact hne
    rcases hcur with hcur | hcur
    · subst hcur; subst hb
      simp only [next_problem, _display_problem, _gen_factors, if_neg hcond]
      exact ⟨_, rfl⟩
    · subst hcur; subst hb
      simp only [next_problem, _display_problem, _gen_factors, if_neg hcond]
      exact ⟨_, rfl⟩

theorem dispatch_bound (w : MultiplicationWidget) (e : TkEvent) (ext : ExtInput)
    (f : String) (h : firstBound w.bound (eventNames e) = some f) :
    dispatch w e ext = runHandler w f e ext := by
  unfold dispatch; rw [h]

theorem dispatch_unbound (w : MultiplicationWidget) (e : TkEvent) (ext : ExtInput)
    (h : firstBound w.bound (eventNames e) = none) :
    dispatch w e ext = .ok w := by
  unfold dispatch; rw [h]

theorem mem_problem :
    ("problem" : String) ∈ (["problem", "correct", "incorrect", "end"] : List String) := by decide

theorem mem_correct :
    ("correct" : String) ∈ (["problem", "correct", "incorrect", "end"] : List String) := by decide

theorem mem_incorrect :
    ("incorrect" : String) ∈ (["problem", "correct", "incorrect", "end"] : List String) := by decide

theorem mem_endState :
    ("end" : String) ∈ (["problem", "correct", "incorrect", "end"] : List String) := by decide

theorem ne_init_problem : ("problem" : String) ≠ "initial" := by decide

theorem ne_init_correct : ("correct" : String) ≠ "initial" := by decide

theorem ne_init_incorrect : ("incorrect" : String) ≠ "initial" := by decide

theorem ne_init_endState : ("end" : String) ≠ "initial" := by decide

theorem not_problem_correct : ("correct" : String) ≠ "problem" := by decide

theorem not_problem_incorrect : ("incorrect" : String) ≠ "problem" := by decide

theorem not_problem_endState : ("end" : String) ≠ "problem" := by decide

theorem dispatch_spec (w : MultiplicationWidget) (e : TkEvent) (ext : ExtInput)
    (hInv : WidgetInv w) :
    (∃ w', dispatch w e ext = .ok w' ∧ WidgetInv w' ∧
      (firstBound w.bound (eventNames e) ≠ none →
        w'.curr_widget_state ≠ "initial")) ∨
    (∃ msg, dispatch w e ext = .error (.valueError msg)) := by
  obtain ⟨hnp, hmin, hmax, hb, hstate⟩ := hInv
  have hInvW : WidgetInv w := ⟨hnp, hmin, hmax, hb, hstate⟩
  rcases hstate with ⟨hcur, h1, h2, h3, h4, h5, h6⟩ |
    ⟨hmem, ns, nd, hns, hnd, hns0, hnd5, hord, hordP,
      ⟨buf, hbuf⟩, ⟨a, hfa⟩, ⟨b, hfb⟩, ⟨st, hst⟩⟩
  · -- the initial state: fresh from __init__, only start_game is bound
    have hbI : w.bound = canonBound "initial" := by rw [hb, hcur]
    obtain ⟨txt, hsg⟩ := start_game_spec w ext hnp (Or.inl hcur) hb
    have hInvR : WidgetInv { w with
        num_solved := some 0, _num_displayed := some 1,
        _user_input_buffer := some "", _start_time := some ext.now,
        first_num := some ext.p2.1, second_num := some ext.p2.2,
        curr_widget_state := "problem", bound := canonBound "problem",
        text := txt } := by
      exact ⟨hnp, hmin, hmax, rfl, Or.inr ⟨mem_problem, 0, 1, rfl, rfl,
        by omega, by omega, by omega, fun _ => by omega,
        ⟨"", rfl⟩, ⟨_, rfl⟩, ⟨_, rfl⟩, ⟨_, rfl⟩⟩⟩
    cases e with
    | button1 =>
      have hf : firstBound w.bound (eventNames .button1) = some "start_game" := by
        rw [hbI]; rfl
      exact Or.inl ⟨_, (dispatch_bound _ _ _ _ hf).trans hsg, hInvR,
        fun _ => ne_init_problem⟩
    | enter =>
      have hf : firstBound w.bound (eventNames .enter) = some "start_game" := by
        rw [hbI]; rfl
      exact Or.inl ⟨_, (dispatch_bound _ _ _ _ hf).trans hsg, hInvR,
        fun _ => ne_init_problem⟩
    | backspace =>
      have hf : firstBound w.bound (eventNames .backspace) = none := by
        rw [hbI]; rfl
      exact Or.inl ⟨w, dispatch_unbound _ _ _ hf, hInvW, fun hne => absurd hf hne⟩
    | key c =>
      have hf : firstBound w.bound (eventNames (.key c)) = none := by
        rw [hbI]; rfl
      exact Or.inl ⟨w, dispatch_unbound _ _ _ hf, hInvW, fun hne => absurd hf hne⟩
  · -- a state of a running session
    have hcurs := hmem
    simp only [List.mem_cons, List.not_mem_nil, or_false] at hcurs
    rcases hcurs with hcur | hcur | hcur | hcur
    · -- the problem state
      have hbP : w.bound = canonBound "problem" := by rw [hb, hcur]
      have hlt : ns < nd := hordP hcur
      cases e with
      | button1 =>
        have hf : firstBound w.bound (eventNames .button1) = none := by
          rw [hbP]; rfl
        exact Or.inl ⟨w, dispatch_unbound _ _ _ hf, hInvW, fun hne => absurd hf hne⟩
      | enter =>
        have hf : firstBound w.bound (eventNames .enter) = some "on_enter" := by
          rw [hbP]; rfl
        obtain ⟨hE1, hE2, hE3⟩ := on_enter_spec w buf a b ns hcur hbP hbuf hfa hfb hns
        by_cases hbe : buf = ""
        · exact Or.inl ⟨w, (dispatch_bound _ _ _ _ hf).trans (hE1 hbe), hInvW,
            fun _ hc => ne_init_problem (hcur.symm.trans hc)⟩
        · cases hpi : pyInt buf with
          | none =>
            exact Or.inr ⟨_, (dispatch_bound _ _ _ _ hf).trans (hE2 hbe hpi)⟩
          | some v =>
            by_cases hv : v = a * b
            · obtain ⟨txt, hok⟩ := (hE3 v hbe hpi).1 hv
              refine Or.inl ⟨_, (dispatch_bound _ _ _ _ hf).trans hok, ?_,
                fun _ => ne_init_correct⟩
              exact ⟨hnp, hmin, hmax, rfl, Or.inr ⟨mem_correct, ns + 1, nd, rfl, hnd,
                by omega, hnd5, by omega, fun hc => absurd hc not_problem_correct,
                ⟨buf, hbuf⟩, ⟨a, hfa⟩, ⟨b, hfb⟩, ⟨st, hst⟩⟩⟩
            · obtain ⟨txt, hok⟩ := (hE3 v hbe hpi).2 hv
              refine Or.inl ⟨_, (dispatch_bound _ _ _ _ hf).trans hok, ?_,
                fun _ => ne_init_incorrect⟩
              exact ⟨hnp, hmin, hmax, rfl, Or.inr ⟨mem_incorrect, ns, nd, hns, hnd,
                hns0, hnd5, by omega, fun hc => absurd hc not_problem_incorrect,
                ⟨buf, hbuf⟩, ⟨a, hfa⟩, ⟨b, hfb⟩, ⟨st, hst⟩⟩⟩
      | backspace =>
        have hf : firstBound w.bound (eventNames .backspace) = some "on_backspace" := by
          rw [hbP]; rfl
        obtain ⟨txt, hok⟩ := on_backspace_spec w buf hcur hbuf
        refine Or.inl ⟨_, (dispatch_bound _ _ _ _ hf).trans hok, ?_,
          fun _ hc => ne_init_problem (hcur.symm.trans hc)⟩
        exact ⟨hnp, hmin, hmax, hb, Or.inr ⟨hmem, ns, nd, hns, hnd,
          hns0, hnd5, hord, hordP,
          ⟨_, rfl⟩, ⟨a, hfa⟩, ⟨b, hfb⟩, ⟨st, hst⟩⟩⟩
      | key c =>
        have hf : firstBound w.bound (eventNames (.key c)) = some "on_keypress" := by
          rw [hbP]; rfl
        obtain ⟨hK1, hK2⟩ := on_keypress_spec w (eventChar (.key c)) buf hcur hbuf
        by_cases hnum : pyIsnumeric (eventChar (.key c)) = true
        · obtain ⟨txt, hok⟩ := hK1 hnum
          refine Or.inl ⟨_, (dispatch_bound _ _ _ _ hf).trans hok, ?_,
            fun _ hc => ne_init_problem (hcur.symm.trans hc)⟩
          exact ⟨hnp, hmin, hmax, hb, Or.inr ⟨hmem, ns, nd, hns, hnd,
            hns0, hnd5, hord, hordP,
            ⟨_, rfl⟩, ⟨a, hfa⟩, ⟨b, hfb⟩, ⟨st, hst⟩⟩⟩
        · have hok := hK2 (by revert hnum; cases pyIsnumeric (eventChar (.key c)) <;> simp)
          exact Or.inl ⟨w, (dispatch_bound _ _ _ _ hf).trans hok, hInvW,
            fun _ hc => ne_init_problem (hcur.symm.trans hc)⟩
    · -- the correct state
      have hbC : w.bound = canonBound "correct" := by rw [hb, hcur]
      obtain ⟨hN1, hN2⟩ := next_problem_spec w ext nd st hnp (Or.inl hcur) hb hnd hst
      by_cases h5 : nd = 5
      · obtain ⟨txt, hok⟩ := hN1 h5
        have hInvR : WidgetInv { w with
            first_num := some ext.p1.1, second_num := some ext.p1.2,
            _user_input_buffer := some "", _end_time := some ext.now,
            seconds_elapsed := some (round1 (ext.now - st)),
            curr_widget_state := "end", bound := canonBound "end",
            text := txt } :=
          ⟨hnp, hmin, hmax, rfl, Or.inr ⟨mem_endState, ns, nd, hns, hnd,
            hns0, hnd5, hord, fun hc => absurd hc not_problem_endState,
            ⟨"", rfl⟩, ⟨_, rfl⟩, ⟨_, rfl⟩, ⟨st, hst⟩⟩⟩
        cases e with
        | button1 =>
          have hf : firstBound w.bound (eventNames .button1) = some "next_problem" := by
            rw [hbC]; rfl
          exact Or.inl ⟨_, (dispatch_bound _ _ _ _ hf).trans hok, hInvR,
            fun _ => ne_init_endState⟩
        | enter =>
          have hf : firstBound w.bound (eventNames .enter) = some "next_problem" := by
            rw [hbC]; rfl
          exact Or.inl ⟨_, (dispatch_bound _ _ _ _ hf).trans hok, hInvR,
            fun _ => ne_init_endState⟩
        | backspace =>
          have hf : firstBound w.bound (eventNames .backspace) = none := by
            rw [hbC]; rfl
          exact Or.inl ⟨w, dispatch_unbound _ _ _ hf, hInvW, fun hne => absurd hf hne⟩
        | key c =>
          have hf : firstBound w.bound (eventNames (.key c)) = none := by
            rw [hbC]; rfl
          exact Or.inl ⟨w, dispatch_unbound _ _ _ hf, hInvW, fun hne => absurd hf hne⟩
      · obtain ⟨txt, hok⟩ := hN2 h5
        have hInvR : WidgetInv { w with
            first_num := some ext.p2.1, second_num := some ext.p2.2,
            _user_input_buffer := some "", _num_displayed := some (nd + 1),
            curr_widget_state := "problem", bound := canonBound "problem",
            text := txt } :=
          ⟨hnp, hmin, hmax, rfl, Or.inr ⟨mem_problem, ns, nd + 1, hns, rfl,
            hns0, by omega, by omega, fun _ => by omega,
            ⟨"", rfl⟩, ⟨_, rfl⟩, ⟨_, rfl⟩, ⟨st, hst⟩⟩⟩
        cases e with
        | button1 =>
          have hf : firstBound w.bound (eventNames .button1) = some "next_problem" := by
            rw [hbC]; rfl
          exact Or.inl ⟨_, (dispatch_bound _ _ _ _ hf).trans hok, hInvR,
            fun _ => ne_init_problem⟩
        | enter =>
          have hf : firstBound w.bound (eventNames .enter) = some "next_problem" := by
            rw [hbC]; rfl
          exact Or.inl ⟨_, (dispatch_bound _ _ _ _ hf).trans hok, hInvR,
            fun _ => ne_init_problem⟩
        | backspace =>
          have hf : firstBound w.bound (eventNames .backspace) = none := by
            rw [hbC]; rfl
          exact Or.inl ⟨w, dispatch_unbound _ _ _ hf, hInvW, fun hne => absurd hf hne⟩
        | key c =>
          have hf : firstBound w.bound (eventNames (.key c)) = none := by
            rw [hbC]; rfl
          exact Or.inl ⟨w, dispatch_unbound _ _ _ hf, hInvW, fun hne => absurd hf hne⟩
    · -- the incorrect state
      have hbC : w.bound = canonBound "incorrect" := by rw [hb, hcur]
      obtain ⟨hN1, hN2⟩ := next_problem_spec w ext nd st hnp (Or.inr hcur) hb hnd hst
      by_cases h5 : nd = 5
      · obtain ⟨txt, hok⟩ := hN1 h5
        have hInvR : WidgetInv { w with
            first_num := some ext.p1.1, second_num := some ext.p1.2,
            _user_input_buffer := some "", _end_time := some ext.now,
            seconds_elapsed := some (round1 (ext.now - st)),
            curr_widget_state := "end", bound := canonBound "end",
            text := txt } :=
          ⟨hnp, hmin, hmax, rfl, Or.inr ⟨mem_endState, ns, nd, hns, hnd,
            hns0, hnd5, hord, fun hc => absurd hc not_problem_endState,
            ⟨"", rfl⟩, ⟨_, rfl⟩, ⟨_, rfl⟩, ⟨st, hst⟩⟩⟩
        cases e with
        | button1 =>
          have hf : firstBound w.bound (eventNames .button1) = some "next_problem" := by
            rw [hbC]; rfl
          exact Or.inl ⟨_, (dispatch_bound _ _ _ _ hf).trans hok, hInvR,
            fun _ => ne_init_endState⟩
        | enter =>
          have hf : firstBound w.bound (eventNames .enter) = some "next_problem" := by
            rw [hbC]; rfl
          exact Or.inl ⟨_, (dispatch_bound _ _ _ _ hf).trans hok, hInvR,
            fun _ => ne_init_endState⟩
        | backspace =>
          have hf : firstBound w.bound (eventNames .backspace) = none := by
            rw [hbC]; rfl
          exact Or.inl ⟨w, dispatch_unbound _ _ _ hf, hInvW, fun hne => absurd hf hne⟩
        | key c =>
          have hf : firstBound w.bound (eventNames (.key c)) = none := by
            rw [hbC]; rfl
          exact Or.inl ⟨w, dispatch_unbound _ _ _ hf, hInvW, fun hne => absurd hf hne⟩
      · obtain ⟨txt, hok⟩ := hN2 h5
        have hInvR : WidgetInv { w with
            first_num := some ext.p2.1, second_num := some ext.p2.2,
            _user_input_buffer := some "", _num_displayed := some (nd + 1),
            curr_widget_state := "problem", bound := canonBound "problem",
            text := txt } :=
          ⟨hnp, hmin, hmax, rfl, Or.inr ⟨mem_problem, ns, nd + 1, hns, rfl,
            hns0, by omega, by omega, fun _ => by omega,
            ⟨"", rfl⟩, ⟨_, rfl⟩, ⟨_, rfl⟩, ⟨st, hst⟩⟩⟩
        cases e with
        | button1 =>
          have hf : firstBound w.bound (eventNames .button1) = some "next_problem" := by
            rw [hbC]; rfl
          exact Or.inl ⟨_, (dispatch_bound _ _ _ _ hf).trans hok, hInvR,
            fun _ => ne_init_problem⟩
        | enter =>
          have hf : firstBound w.bound (eventNames .enter) = some "next_problem" := by
            rw [hbC]; rfl
          exact Or.inl ⟨_, (dispatch_bound _ _ _ _ hf).trans hok, hInvR,
            fun _ => ne_init_problem⟩
        | backspace =>
          have hf : firstBound w.bound (eventNames .backspace) = none := by
            rw [hbC]; rfl
          exact Or.inl ⟨w, dispatch_unbound _ _ _ hf, hInvW, fun hne => absurd hf hne⟩
        | key c =>
          have hf : firstBound w.bound (eventNames (.key c)) = none := by
            rw [hbC]; rfl
          exact Or.inl ⟨w, dispatch_unbound _ _ _ hf, hInvW, fun hne => absurd hf hne⟩
    · -- the end state
      have hbE : w.bound = canonBound "end" := by rw [hb, hcur]
      obtain ⟨txt, hsg⟩ := start_game_spec w ext hnp (Or.inr hcur) hb
      have hInvR : WidgetInv { w with
          num_solved := some 0, _num_displayed := some 1,
          _user_input_buffer := some "", _start_time := some ext.now,
          first_num := some ext.p2.1, second_num := some ext.p2.2,
          curr_widget_state := "problem", bound := canonBound "problem",
          text := txt } :=
        ⟨hnp, hmin, hmax, rfl, Or.inr ⟨mem_problem, 0, 1, rfl, rfl,
          by omega, by omega, by omega, fun _ => by omega,
          ⟨"", rfl⟩, ⟨_, rfl⟩, ⟨_, rfl⟩, ⟨_, rfl⟩⟩⟩
      cases e with
      | button1 =>
        have hf : firstBound w.bound (eventNames .button1) = some "start_game" := by
          rw [hbE]; rfl
        exact Or.inl ⟨_, (dispatch_bound _ _ _ _ hf).trans hsg, hInvR,
          fun _ => ne_init_problem⟩
      | enter =>
        have hf : firstBound w.bound (eventNames .enter) = some "start_game" := by
          rw [hbE]; rfl
        exact Or.inl ⟨_, (dispatch_bound _ _ _ _ hf).trans hsg, hInvR,
          fun _ => ne_init_problem⟩
      | backspace =>
        have hf : firstBound w.bound (eventNames .backspace) = none := by
          rw [hbE]; rfl
        exact Or.inl ⟨w, dispatch_unbound _ _ _ hf, hInvW, fun hne => absurd hf hne⟩
      | key c =>
        have hf : firstBound w.bound (eventNames (.key c)) = none := by
          rw [hbE]; rfl
        exact Or.inl ⟨w, dispatch_unbound _ _ _ hf, hInvW, fun hne => absurd hf hne⟩

theorem reachable_inv (w : MultiplicationWidget) (h : Reachable w) : WidgetInv w := by
  induction h with
  | init w hw =>
    rw [init_ok] at hw
    injection hw with hw
    subst hw
    exact ⟨rfl, rfl, rfl, rfl, Or.inl ⟨rfl, rfl, rfl, rfl, rfl, rfl, rfl⟩⟩
  | step w w' e ext hr hv hd ih =>
    rcases dispatch_spec w e ext ih with ⟨w2, hok, hi, _⟩ | ⟨msg, herr⟩
    · rw [hd] at hok
      injection hok with h2
      subst h2
      exact hi
    · rw [hd] at herr
      cases herr

theorem wProblem_step : dispatch initWidget .enter extA = .ok wProblem := by decide

theorem initWidget_reach : Reachable initWidget := Reachable.init initWidget init_ok

theorem wProblem_reach : Reachable wProblem :=
  Reachable.step initWidget wProblem .enter extA initWidget_reach (by decide)
    wProblem_step

theorem wSup_step : dispatch wProblem (.key '²') extA = .ok wSup := by decide

theorem wSup_reach : Reachable wSup :=
  Reachable.step wProblem wSup (.key '²') extA wProblem_reach (by decide) wSup_step

theorem pyRound_nonneg (x : Rat) (hx : 0 ≤ x) : 0 ≤ pyRound x := by
  unfold pyRound
  have hf : (0 : Int) ≤ ⌊x⌋ := Int.le_floor.mpr (by exact_mod_cast hx)
  split_ifs <;> omega

theorem round1_nonneg (x : Rat) (hx : 0 ≤ x) : 0 ≤ round1 x := by
  unfold round1
  have h10 : (0 : Rat) ≤ 10 * x := by nlinarith
  have := pyRound_nonneg (10 * x) h10
  have hcast : (0 : Rat) ≤ (pyRound (10 * x) : Rat) := by exact_mod_cast this
  nlinarith

theorem set_widget_state_ok (w : MultiplicationWidget) (tgt : String)
    (hcur : w.curr_widget_state ∈ stateNames) (htgt : tgt ∈ stateNames) :
    ∃ txt, set_widget_state w tgt = .ok { w with
      curr_widget_state := tgt,
      bound := bindAll (unbindAll w.bound (routingsOf w.curr_widget_state))
        (routingsOf tgt),
      text := txt } := by
  obtain ⟨np, se, nso, ndo, fn, sn, sto, eto, bufo, minf, maxf, cur, tx, bnd⟩ := w
  simp only [stateNames, List.mem_cons, List.not_mem_nil, or_false] at hcur htgt
  rcases hcur with h | h | h | h | h <;> subst h <;>
    (rcases htgt with t | t | t | t | t <;> subst t <;> exact ⟨_, rfl⟩)

theorem buildReps_error (cands : List String)
    (attrs scope : List (String × String)) :
    ∀ acc, (buildReps cands attrs scope acc).isOk = false ↔
      ∃ c ∈ cands, List.lookup c attrs = none ∧ List.lookup c scope = none := by
  induction cands with
  | nil => intro acc; simp [buildReps, Except.isOk, Except.toBool]
  | cons c rest ih =>
    intro acc
    cases ha : List.lookup c attrs with
    | some v =>
      simp only [buildReps, ha]
      rw [ih]
      constructor
      · rintro ⟨c0, hm, h1, h2⟩
        exact ⟨c0, List.mem_cons_of_mem _ hm, h1, h2⟩
      · rintro ⟨c0, hm, h1, h2⟩
        rcases List.mem_cons.mp hm with rfl | hm'
        · rw [ha] at h1; cases h1
        · exact ⟨c0, hm', h1, h2⟩
    | none =>
      cases hs : List.lookup c scope with
      | some v =>
        simp only [buildReps, ha, hs]
        rw [ih]
        constructor
        · rintro ⟨c0, hm, h1, h2⟩
          exact ⟨c0, List.mem_cons_of_mem _ hm, h1, h2⟩
        · rintro ⟨c0, hm, h1, h2⟩
          rcases List.mem_cons.mp hm with rfl | hm'
          · rw [hs] at h2; cases h2
          · exact ⟨c0, hm', h1, h2⟩
      | none =>
        simp only [buildReps, ha, hs]
        constructor
        · intro _
          exact ⟨c, List.mem_cons_self c rest, ha, hs⟩
        · intro _
          rfl

theorem buildReps_error_form (cands : List String)
    (attrs scope : List (String × String)) :
    ∀ acc e, buildReps cands attrs scope acc = .error e →
      ∃ c ∈ cands,
        e = .runtimeError ("Bad format key: \x22" ++ c ++ "\x22") := by
  induction cands with
  | nil => intro acc e h; cases h
  | cons c rest ih =>
    intro acc e h
    simp only [buildReps] at h
    cases ha : List.lookup c attrs with
    | some v =>
      rw [ha] at h
      obtain ⟨c0, hm, he⟩ := ih _ _ h
      exact ⟨c0, List.mem_cons_of_mem _ hm, he⟩
    | none =>
      rw [ha] at h
      cases hs : List.lookup c scope with
      | some v =>
        rw [hs] at h
        obtain ⟨c0, hm, he⟩ := ih _ _ h
        exact ⟨c0, List.mem_cons_of_mem _ hm, he⟩
      | none =>
        rw [hs] at h
        injection h with h
        exact ⟨c, List.mem_cons_self c rest, h.symm⟩

/-- Claim C1: at every instant after initialization exactly one state owns
the registered event bindings: every reachable controller state carries
precisely the binding table of its current state, and for every pair of
source and target states the transition body of `set_widget_state` (first
unbinding all routings of the source, then binding all routings of the
target, in that order) turns the binding table of the source into exactly
the binding table of the target. -/
theorem active_bindings_exclusive :
    (∀ w, Reachable w → w.bound = canonBound w.curr_widget_state) ∧
    (∀ src tgt, src ∈ stateNames → tgt ∈ stateNames →
      bindAll (unbindAll (canonBound src) (routingsOf src)) (routingsOf tgt) =
        canonBound tgt) := by
  constructor
  · intro w h
    exact (reachable_inv w h).2.2.2.1
  · intro src tgt hs ht
    simp only [stateNames, List.mem_cons, List.not_mem_nil, or_false] at hs ht
    rcases hs with h | h | h | h | h <;> subst h <;>
      (rcases ht with t | t | t | t | t <;> subst t <;> rfl)

theorem active_bindings_exclusive_witness :
    Reachable wProblem ∧
    wProblem.bound = canonBound wProblem.curr_widget_state ∧
    ("correct" ∈ stateNames ∧ "problem" ∈ stateNames) ∧
    bindAll (unbindAll (canonBound "correct") (routingsOf "correct"))
        (routingsOf "problem") = canonBound "problem" :=
  ⟨wProblem_reach,
    active_bindings_exclusive.1 wProblem wProblem_reach,
    ⟨by decide, by decide⟩,
    active_bindings_exclusive.2 "correct" "problem" (by decide) (by decide)⟩

/-- Claim C2: after every handler invocation (a delivered event that has a
binding in the current state) the session counters exist and satisfy
0 ≤ numSolved ≤ numDisplayed ≤ numProblems. -/
theorem session_counters_ordered (w : MultiplicationWidget) (e : TkEvent)
    (ext : ExtInput) (w' : MultiplicationWidget)
    (hr : Reachable w) (hv : validExt w ext)
    (hd : dispatch w e ext = .ok w')
    (hhandler : firstBound w.bound (eventNames e) ≠ none) :
    ∃ ns nd, w'.num_solved = some ns ∧ w'._num_displayed = some nd ∧
      0 ≤ ns ∧ ns ≤ nd ∧ nd ≤ w'.num_problems := by
  have hi := reachable_inv w hr
  rcases dispatch_spec w e ext hi with ⟨w2, hok, hI, hni⟩ | ⟨msg, herr⟩
  · rw [hd] at hok
    injection hok with h2
    subst h2
    obtain ⟨hnp, _, _, _, hstate⟩ := hI
    rcases hstate with ⟨hcur, _⟩ |
      ⟨_, ns, nd, hns, hnd, h0, h5, hord, _, _, _, _, _⟩
    · exact absurd hcur (hni hhandler)
    · exact ⟨ns, nd, hns, hnd, h0, hord, by rw [hnp]; exact h5⟩
  · rw [hd] at herr
    cases herr

theorem session_counters_ordered_witness :
    Reachable initWidget ∧ validExt initWidget extA ∧
    dispatch initWidget .enter extA = .ok wProblem ∧
    firstBound initWidget.bound (eventNames .enter) ≠ none ∧
    ∃ ns nd, wProblem.num_solved = some ns ∧
      wProblem._num_displayed = some nd ∧
      0 ≤ ns ∧ ns ≤ nd ∧ nd ≤ wProblem.num_problems :=
  ⟨initWidget_reach, by decide, wProblem_step, by decide,
    session_counters_ordered initWidget .enter extA wProblem initWidget_reach
      (by decide) wProblem_step (by decide)⟩

/-- Claim C9: every reachable controller state carries one of the five
enumerated identifiers, the state-table lookup succeeds for it and for all
five identifiers (the only names any transition requests), and consequently
no delivered event can ever raise the lookup failure (`KeyError`, the
UnknownState fault) at runtime. -/
theorem state_lookup_total (w : MultiplicationWidget) (hr : Reachable w) :
    w.curr_widget_state ∈ stateNames ∧
    (List.lookup w.curr_widget_state widget_states).isSome = true ∧
    (∀ nm ∈ stateNames, (List.lookup nm widget_states).isSome = true) ∧
    (∀ e ext, validExt w ext →
      ∀ msg, dispatch w e ext ≠ .error (PyErr.keyError msg)) := by
  have hi := reachable_inv w hr
  obtain ⟨_, _, _, _, hstate⟩ := hi
  have hmem : w.curr_widget_state ∈ stateNames := by
    rcases hstate with ⟨hcur, _⟩ | ⟨hmem4, _⟩
    · rw [hcur]; decide
    · simp only [List.mem_cons, List.not_mem_nil, or_false] at hmem4
      simp only [stateNames, List.mem_cons, List.not_mem_nil, or_false]
      tauto
  refine ⟨hmem, ?_, by decide, ?_⟩
  · simp only [stateNames, List.mem_cons, List.not_mem_nil, or_false] at hmem
    rcases hmem with h | h | h | h | h <;> rw [h] <;> rfl
  · intro e ext hv msg
    rcases dispatch_spec w e ext (reachable_inv w hr) with
      ⟨w2, hok, _, _⟩ | ⟨m, herr⟩
    · rw [hok]
      intro hc
      cases hc
    · rw [herr]
      intro hc
      injection hc with h
      cases h

theorem state_lookup_total_witness :
    Reachable wProblem ∧
    (wProblem.curr_widget_state ∈ stateNames ∧
      (List.lookup wProblem.curr_widget_state widget_states).isSome = true ∧
      (∀ nm ∈ stateNames, (List.lookup nm widget_states).isSome = true) ∧
      (∀ e ext, validExt wProblem ext →
        ∀ msg, dispatch wProblem e ext ≠ .error (PyErr.keyError msg))) :=
  ⟨wProblem_reach, state_lookup_total wProblem wProblem_reach⟩

/-- Claim C10: the configuration fields `num_problems`, `_min_factor` and
`_max_factor` hold their startup values 5, 0 and 10 in every reachable
state, and every delivered event leaves them unchanged. -/
theorem config_fields_constant (w : MultiplicationWidget) (hr : Reachable w) :
    (w.num_problems = 5 ∧ w._min_factor = 0 ∧ w._max_factor = 10) ∧
    (∀ e ext w', validExt w ext → dispatch w e ext = .ok w' →
      w'.num_problems = w.num_problems ∧ w'._min_factor = w._min_factor ∧
      w'._max_factor = w._max_factor) := by
  obtain ⟨hnp, hmin, hmax, _, _⟩ := reachable_inv w hr
  refine ⟨⟨hnp, hmin, hmax⟩, ?_⟩
  intro e ext w' hv hd
  obtain ⟨hnp', hmin', hmax', _, _⟩ :=
    reachable_inv w' (Reachable.step w w' e ext hr hv hd)
  exact ⟨hnp'.trans hnp.symm, hmin'.trans hmin.symm, hmax'.trans hmax.symm⟩

theorem config_fields_constant_witness :
    Reachable initWidget ∧
    ((initWidget.num_problems = 5 ∧ initWidget._min_factor = 0 ∧
        initWidget._max_factor = 10) ∧
      (∀ e ext w', validExt initWidget ext →
        dispatch initWidget e ext = .ok w' →
        w'.num_problems = initWidget.num_problems ∧
        w'._min_factor = initWidget._min_factor ∧
        w'._max_factor = initWidget._max_factor)) :=
  ⟨initWidget_reach, config_fields_constant initWidget initWidget_reach⟩

/-- Claim C5 names a real code bug: the keypress guard is Python
`str.isnumeric`, which accepts numeric non-digit characters such as the
superscript two, so the buffer is not confined to decimal digits and the
`int` parse in `on_enter` can raise `ValueError` at runtime.  This theorem
exhibits the failure: from the reachable problem state, the superscript-two
key passes the guard into the buffer and the following confirm raises. -/
theorem superscript_keypress_parse_failure :
    pyIsnumeric (String.singleton '²') = true ∧
    Char.isDigit '²' = false ∧
    Reachable wSup ∧
    wSup._user_input_buffer = some "²" ∧
    pyInt "²" = none ∧
    dispatch wSup .enter extA =
      .error (.valueError "invalid literal for int: ²") :=
  ⟨by decide, by decide, wSup_reach, rfl, by decide, by decide⟩

/-- Claim C6 counterexample: the claim quantifies over every non-empty
buffer, but the reachable problem state whose buffer is the numeric
non-digit string of one superscript two makes `on_enter` raise instead of
comparing and transitioning. -/
theorem on_enter_nonparseable_counterexample :
    Reachable wSup ∧
    wSup.curr_widget_state = "problem" ∧
    wSup._user_input_buffer = some "²" ∧
    ("²" : String) ≠ "" ∧
    on_enter wSup = .error (.valueError "invalid literal for int: ²") ∧
    (on_enter wSup).isOk = false :=
  ⟨wSup_reach, rfl, rfl, by decide, by decide, by decide⟩

/-- Claim C6 (amended): in the problem state `on_enter` is a no-op on an
empty buffer; on a buffer that `int` parses (in particular every buffer of
decimal digits) it compares the parsed value with the product of the two
factors, incrementing the solved count and transitioning to the correct
state on a match and transitioning to the incorrect state with the solved
count unchanged on a mismatch. -/
theorem on_enter_decision (w : MultiplicationWidget) (buf : String)
    (a b ns : Int)
    (hcur : w.curr_widget_state = "problem")
    (hb : w.bound = canonBound "problem")
    (hbuf : w._user_input_buffer = some buf)
    (hfn : w.first_num = some a) (hsn : w.second_num = some b)
    (hns : w.num_solved = some ns) :
    (buf = "" → on_enter w = .ok w) ∧
    (∀ v, pyInt buf = some v →
      (v = a * b → ∃ w', on_enter w = .ok w' ∧
        w'.curr_widget_state = "correct" ∧ w'.num_solved = some (ns + 1) ∧
        w'._num_displayed = w._num_displayed) ∧
      (v ≠ a * b → ∃ w', on_enter w = .ok w' ∧
        w'.curr_widget_state = "incorrect" ∧ w'.num_solved = some ns ∧
        w'._num_displayed = w._num_displayed)) := by
  obtain ⟨h1, h2, h3⟩ := on_enter_spec w buf a b ns hcur hb hbuf hfn hsn hns
  refine ⟨h1, ?_⟩
  intro v hv
  have hbne : buf ≠ "" := by
    intro hc
    subst hc
    rw [show pyInt "" = none from rfl] at hv
    cases hv
  obtain ⟨hc1, hc2⟩ := h3 v hbne hv
  constructor
  · intro heq
    obtain ⟨txt, hok⟩ := hc1 heq
    exact ⟨_, hok, rfl, rfl, rfl⟩
  · intro hne
    obtain ⟨txt, hok⟩ := hc2 hne
    exact ⟨_, hok, rfl, hns, rfl⟩

theorem on_enter_decision_witness :
    (wP56.curr_widget_state = "problem" ∧ wP56.bound = canonBound "problem" ∧
      wP56._user_input_buffer = some "56" ∧ wP56.first_num = some 7 ∧
      wP56.second_num = some 8 ∧ wP56.num_solved = some 0 ∧
      pyInt "56" = some 56 ∧ (56 : Int) = 7 * 8) ∧
    (∃ w', on_enter wP56 = .ok w' ∧ w'.curr_widget_state = "correct" ∧
      w'.num_solved = some 1 ∧ w'._num_displayed = wP56._num_displayed) ∧
    ((56 : Int) ≠ 7 * 9) ∧
    (∃ w', on_enter wP79 = .ok w' ∧ w'.curr_widget_state = "incorrect" ∧
      w'.num_solved = some 0 ∧ w'._num_displayed = wP79._num_displayed) := by
  refine ⟨⟨rfl, rfl, rfl, rfl, rfl, rfl, by decide, by decide⟩, ?_, by decide, ?_⟩
  · exact ((on_enter_decision wP56 "56" 7 8 0 rfl rfl rfl rfl rfl rfl).2
      56 (by decide)).1 (by decide)
  · exact ((on_enter_decision wP79 "56" 7 9 0 rfl rfl rfl rfl rfl rfl).2
      56 (by decide)).2 (by decide)

/-- Claim C7: the display-next-problem procedure either closes the session
(when the displayed count equals `num_problems`: it records the end time,
stores the elapsed seconds, nonnegative and rounded to one decimal place,
and transitions to the end state; in a default session this is its sixth
invocation, following the start invocation and five problems) or serves the
next problem (fresh factor pair, transition to the problem state, displayed
count incremented by one). -/
theorem display_next_problem_behavior (w : MultiplicationWidget)
    (p : Int × Int) (now st : Rat) (nd : Int)
    (hcur : w.curr_widget_state ∈ stateNames)
    (hst : w._start_time = some st) (hmono : st ≤ now)
    (hnd : w._num_displayed = some nd) :
    (nd = w.num_problems → ∃ w', _display_problem w p now = .ok w' ∧
      w'.curr_widget_state = "end" ∧ w'._end_time = some now ∧
      w'.seconds_elapsed = some (round1 (now - st)) ∧
      0 ≤ round1 (now - st) ∧
      ∃ k : Int, round1 (now - st) = (k : Rat) / 10) ∧
    (nd ≠ w.num_problems → ∃ w', _display_problem w p now = .ok w' ∧
      w'.curr_widget_state = "problem" ∧ w'.first_num = some p.1 ∧
      w'.second_num = some p.2 ∧ w'._num_displayed = some (nd + 1) ∧
      w'.num_solved = w.num_solved) := by
  constructor
  · intro h5
    have hcond : w._num_displayed = some w.num_problems := by rw [hnd, h5]
    obtain ⟨txt, hset⟩ := set_widget_state_ok
      { w with _end_time := some now,
               seconds_elapsed := some (round1 (now - st)) }
      "end" hcur (by decide)
    have heq : _display_problem w p now =
        set_widget_state
          { w with _end_time := some now,
                   seconds_elapsed := some (round1 (now - st)) } "end" := by
      unfold _display_problem
      rw [if_pos hcond, hst]
    exact ⟨_, heq.trans hset, rfl, rfl, rfl,
      round1_nonneg _ (by linarith), ⟨_, rfl⟩⟩
  · intro hne
    have hcond : ¬ w._num_displayed = some w.num_problems := by
      rw [hnd]
      intro hc
      exact hne (Option.some.inj hc)
    obtain ⟨txt, hset⟩ := set_widget_state_ok (_gen_factors w p) "problem"
      hcur (by decide)
    have heq : _display_problem w p now = .ok { _gen_factors w p with
        curr_widget_state := "problem",
        bound := bindAll (unbindAll w.bound (routingsOf w.curr_widget_state))
          (routingsOf "problem"),
        text := txt, _num_displayed := some (nd + 1) } := by
      unfold _display_problem
      rw [if_neg hcond, hset,
        show (_gen_factors w p)._num_displayed = some nd from hnd]
      rfl
    exact ⟨_, heq, rfl, rfl, rfl, rfl, rfl⟩

theorem display_next_problem_behavior_witness :
    (wCorrect5.curr_widget_state ∈ stateNames ∧
      wCorrect5._start_time = some 0 ∧ (0 : Rat) ≤ 10 ∧
      wCorrect5._num_displayed = some 5 ∧
      (5 : Int) = wCorrect5.num_problems) ∧
    (∃ w', _display_problem wCorrect5 (3, 4) 10 = .ok w' ∧
      w'.curr_widget_state = "end" ∧ w'._end_time = some 10 ∧
      w'.seconds_elapsed = some (round1 (10 - 0)) ∧
      0 ≤ round1 (10 - 0) ∧
      ∃ k : Int, round1 (10 - 0) = (k : Rat) / 10) :=
  ⟨⟨by decide, rfl, by norm_num, rfl, rfl⟩,
    (display_next_problem_behavior wCorrect5 (3, 4) 10 0 5 (by decide) rfl
      (by norm_num) rfl).1 rfl⟩

/-- Claim C8: a confirm in the initial or end state runs `start_game`,
which resets the solved and displayed counters to zero and the buffer to
the empty string, records the session start time, and then runs the
display procedure, which generates the first factor pair, transitions to
the problem state and bumps the displayed count to one for the problem now
on screen. -/
theorem start_game_behavior (w : MultiplicationWidget) (ext : ExtInput)
    (hnp : w.num_problems = 5)
    (hcur : w.curr_widget_state = "initial" ∨ w.curr_widget_state = "end")
    (hb : w.bound = canonBound w.curr_widget_state) :
    (_init_vars w).num_solved = some 0 ∧
    (_init_vars w)._num_displayed = some 0 ∧
    (_init_vars w)._user_input_buffer = some "" ∧
    start_game w ext =
      _display_problem { _init_vars w with _start_time := some ext.now }
        ext.p2 ext.now ∧
    ∃ w', start_game w ext = .ok w' ∧ w'.curr_widget_state = "problem" ∧
      w'.num_solved = some 0 ∧ w'._user_input_buffer = some "" ∧
      w'._start_time = some ext.now ∧ w'.first_num = some ext.p2.1 ∧
      w'.second_num = some ext.p2.2 ∧ w'._num_displayed = some 1 := by
  obtain ⟨txt, hsg⟩ := start_game_spec w ext hnp hcur hb
  exact ⟨rfl, rfl, rfl, rfl, ⟨_, hsg, rfl, rfl, rfl, rfl, rfl, rfl, rfl⟩⟩

theorem start_game_behavior_witness :
    (initWidget.num_problems = 5 ∧
      initWidget.curr_widget_state = "initial" ∧
      initWidget.bound = canonBound initWidget.curr_widget_state) ∧
    ((_init_vars initWidget).num_solved = some 0 ∧
      (_init_vars initWidget)._num_displayed = some 0 ∧
      (_init_vars initWidget)._user_input_buffer = some "" ∧
      start_game initWidget extA =
        _display_problem
          { _init_vars initWidget with _start_time := some extA.now }
          extA.p2 extA.now ∧
      ∃ w', start_game initWidget extA = .ok w' ∧
        w'.curr_widget_state = "problem" ∧ w'.num_solved = some 0 ∧
        w'._user_input_buffer = some "" ∧ w'._start_time = some extA.now ∧
        w'.first_num = some extA.p2.1 ∧ w'.second_num = some extA.p2.2 ∧
        w'._num_displayed = some 1) :=
  ⟨⟨rfl, rfl, rfl⟩,
    start_game_behavior initWidget extA rfl (Or.inl rfl) rfl⟩

/-- Claim C3 counterexample: the token `time` has no entry among the
controller attributes, yet resolution succeeds, because the lookup falls
back to the ambient module scope (`dict(globals(), **locals())`), where the
`time` module is bound.  A template containing a token without a
controller-attribute entry therefore need not fail. -/
theorem resolve_scope_fallback_counterexample :
    List.lookup "time" (varsOf mw0) = none ∧
    findall "[time]" = ["time"] ∧
    (_get_formatted "[time]" (varsOf mw0) pythonScope).isOk = true :=
  ⟨by decide, by decide, by decide⟩

/-- Claim C3 (amended): template resolution fails, with the
`Bad format key` `RuntimeError` (the UnresolvedVariable fault), exactly
when some scanned token name has an entry neither among the controller
attributes nor in the ambient scope; when every scanned token has an entry
in one of the two tiers it succeeds.  The context hypotheses record the
modelling boundary: keys are identifiers and values are backslash-free, as
in every context the program builds. -/
theorem resolve_error_characterization (t : String)
    (attrs scope : List (String × String))
    (h1 : cleanCtx attrs) (h2 : cleanCtx scope) :
    ((_get_formatted t attrs scope).isOk = false ↔
      ∃ c ∈ findall t,
        List.lookup c attrs = none ∧ List.lookup c scope = none) ∧
    (∀ e, _get_formatted t attrs scope = .error e →
      ∃ c ∈ findall t,
        e = .runtimeError ("Bad format key: \x22" ++ c ++ "\x22")) := by
  have key := buildReps_error (findall t) attrs scope []
  have hiso : (_get_formatted t attrs scope).isOk =
      (buildReps (findall t) attrs scope []).isOk := by
    unfold _get_formatted
    cases buildReps (findall t) attrs scope [] <;> rfl
  constructor
  · rw [hiso]
    exact key
  · intro e he
    have hb : buildReps (findall t) attrs scope [] = .error e := by
      revert he
      unfold _get_formatted
      cases hb2 : buildReps (findall t) attrs scope [] with
      | error e2 =>
        intro he
        injection he with h
        rw [h]
      | ok r =>
        intro he
        cases he
    exact buildReps_error_form (findall t) attrs scope [] e hb

theorem resolve_error_characterization_witness :
    cleanCtx [("num_solved", "3")] ∧
    cleanCtx ([] : List (String × String)) ∧
    (((_get_formatted "[num_solved] of [missing]"
          [("num_solved", "3")] []).isOk = false ↔
      ∃ c ∈ findall "[num_solved] of [missing]",
        List.lookup c [("num_solved", "3")] = none ∧
        List.lookup c ([] : List (String × String)) = none) ∧
     (∀ e, _get_formatted "[num_solved] of [missing]"
          [("num_solved", "3")] [] = .error e →
       ∃ c ∈ findall "[num_solved] of [missing]",
         e = .runtimeError ("Bad format key: \x22" ++ c ++ "\x22"))) :=
  ⟨by decide, by decide,
    resolve_error_characterization "[num_solved] of [missing]"
      [("num_solved", "3")] [] (by decide) (by decide)⟩

/-- Claim C4 counterexample: substitution is not a single non-rescanning
pass.  With the token `a` resolving to the text `[b]` and the token `b`
resolving to `1`, the claim as stated predicts the output `[b] 1` (the
token shape introduced by the substituted value of `a` must survive), but
the later pass for `b` rescans the text produced by the pass for `a` and
the program yields `1 1`. -/
theorem substitution_rescan_counterexample :
    _get_formatted "[a] [b]" [("a", "[b]"), ("b", "1")] [] = .ok "1 1" ∧
    ("1 1" : String) ≠ "[b] 1" :=
  ⟨by decide, by decide⟩

/-- Claim C4 (amended): substitution runs one textual replacement pass per
resolved token in first-occurrence order; each pass replaces every
unescaped occurrence of its own token and never rescans the replacement
text it inserts (so a value containing its own token shape is emitted
verbatim), but the text inserted by one pass is scanned by the passes of
later tokens, so a token shape introduced by a substituted value is
replaced when it names a distinct token substituted later; escaped
brackets are never treated as token delimiters.  The backslash-free
hypothesis records the replacement-escape modelling boundary of `re.sub`. -/
theorem substitution_pass_semantics (v : String) (hv : ¬ '\\' ∈ v.data) :
    _get_formatted "[a]" [("a", v)] [] = .ok v ∧
    _get_formatted "[a][a]" [("a", v)] [] = .ok (v ++ v) ∧
    _get_formatted "[a] [b]" [("a", "[b]"), ("b", v)] [] =
      .ok (v ++ " " ++ v) ∧
    _get_formatted "\x5c[a]" [("a", v)] [] = .ok "\x5c[a]" := by
  refine ⟨?_, ?_, ?_, rfl⟩
  · show Except.ok (String.mk (v.data ++ [])) = Except.ok v
    cases v with
    | mk l => simp
  · show Except.ok (String.mk (v.data ++ (v.data ++ []))) = Except.ok (v ++ v)
    cases v with
    | mk l =>
      show Except.ok (String.mk (l ++ (l ++ []))) =
        Except.ok (String.mk (l ++ l))
      rw [List.append_nil]
  · show Except.ok (String.mk (v.data ++ (' ' :: (v.data ++ [])))) =
      Except.ok (v ++ " " ++ v)
    cases v with
    | mk l =>
      show Except.ok (String.mk (l ++ (' ' :: (l ++ [])))) =
        Except.ok (String.mk ((l ++ [' ']) ++ l))
      rw [List.append_nil, List.append_assoc]
      rfl

theorem substitution_pass_semantics_witness :
    (¬ '\\' ∈ ("[a]" : String).data) ∧
    (_get_formatted "[a]" [("a", "[a]")] [] = .ok "[a]" ∧
      _get_formatted "[a][a]" [("a", "[a]")] [] = .ok ("[a]" ++ "[a]") ∧
      _get_formatted "[a] [b]" [("a", "[b]"), ("b", "[a]")] [] =
        .ok ("[a]" ++ " " ++ "[a]") ∧
      _get_formatted "\x5c[a]" [("a", "[a]")] [] = .ok "\x5c[a]") :=
  ⟨by decide, substitution_pass_semantics "[a]" (by decide)⟩
